import Mathlib

/-!
Verification development for the truckersmp-cli core
(`__init__.py`, `steamcmd.py`, `steamruntime_helper.py`).

The Python code is shallowly embedded: environment dictionaries become
ordered association lists, `os.path.join` becomes `pathJoin`, and every
external effect (process invocation, download, extraction) becomes an
explicit event in a trace.  Outcomes of external probes (whether Wine is
available, whether Steam is running, what `get_beta_branch_name` returned,
exit statuses of spawned processes) are inputs to the embedding, since the
Python code only branches on them.
-/

/-- Environment dictionaries (`os.environ.copy()` and derived copies) as
ordered association lists from variable name to value, mirroring Python
`dict` semantics: `setEnv` replaces the binding in place if the key is
present, otherwise appends it; `delEnv` removes the binding. -/
abbrev EnvMap := List (String × String)

/-- Lookup of a variable, `env.get(key)` / `env[key]`. -/
def getEnv : EnvMap → String → Option String
  | [], _ => none
  | (k, v) :: rest, key => if k = key then some v else getEnv rest key

/-- Assignment `env[key] = val` with Python dict semantics. -/
def setEnv : EnvMap → String → String → EnvMap
  | [], key, val => [(key, val)]
  | (k, v) :: rest, key, val =>
    if k = key then (key, val) :: rest else (k, v) :: setEnv rest key val

/-- Deletion `del env[key]` (no-op when the key is absent). -/
def delEnv : EnvMap → String → EnvMap
  | [], _ => []
  | (k, v) :: rest, key =>
    if k = key then delEnv rest key else (k, v) :: delEnv rest key

/-- Some value bound in the environment has `p` as a substring.  Used to
state that an environment "contains" the overlay library path. -/
def envContains (e : EnvMap) (p : String) : Prop :=
  ∃ kv, kv ∈ e ∧ p.toList <:+: kv.2.toList

instance envContainsDecidable (e : EnvMap) (p : String) :
    Decidable (envContains e p) :=
  inferInstanceAs (Decidable (∃ kv, kv ∈ e ∧ p.toList <:+: kv.2.toList))

/-- `os.path.join(a, b)` for POSIX paths, as used by the tool: an absolute
second component replaces the first; otherwise the components are joined
with a single separator. -/
def pathJoin (a b : String) : String :=
  if b.toList.head? = some '/' then b
  else if a = "" ∨ a.toList.getLast? = some '/' then a ++ b
  else a ++ "/" ++ b

/-- Constants from `variables.py` (not part of the embedded sources); the
embedding is parametric in them, since no claim depends on their literal
values. -/
structure Vars where
  steamcmdpfx : String
  steamcmddir : String
  steamcmdlnx : String
  steamcmdwin : String
  overlayrenderer_inner : String
  inject_exe : String

/-- Python truthiness of an optional string (`None` and `""` are falsy). -/
def optTruthy : Option String → Bool
  | none => false
  | some s => if s = "" then false else true

/-- Release-branch resolution, `steamcmd.py` lines 147-156:
`branch = "public"; if args.beta: branch = args.beta;
else: ... if beta_branch_name: branch = beta_branch_name`.
`detected` is the value returned by `get_beta_branch_name`. -/
def resolveBranch (beta detected : Option String) : String :=
  if optTruthy beta then beta.getD "public"
  else if optTruthy detected then detected.getD "public"
  else "public"

/-- The SteamCMD argument list for the game update, `steamcmd.py`
lines 169-177. -/
def steamcmdGameArgs (account gamedir steamid branch : String) : List String :=
  ["+@sSteamCmdForcePlatformType", "windows",
   "+login", account,
   "+force_install_dir", gamedir,
   "+app_update", steamid,
   "-beta", branch,
   "validate",
   "+quit"]

/-- Call sites of external-process invocations in `update_game`
(`steamcmd.py`); the trace records which source line produced each call. -/
inductive CallSite where
  | wineVersionProbe
  | winepathConvert
  | linuxSteamShutdown
  | windowsSteamShutdown
  | protonUpdate
  | gameUpdate
  deriving DecidableEq

/-- One external effect of the update pipeline.  `call site argv env`
is a `subprocess` invocation (`env = none` when no `env=` keyword is
passed, so the child inherits the ambient process environment);
`download` is a `urllib.request.urlopen` fetch; the two extraction
events model `tarfile.extractall` and the single-entry zip extraction. -/
inductive Invocation where
  | call (site : CallSite) (argv : List String) (env : Option EnvMap)
  | download (url : String)
  | extractTar (dir : String)
  | extractZipEntry (entry : String) (dest : String)
  deriving DecidableEq

/-- Oracle for provisioning: exit status of the download and the
extraction, and the file paths a tar archive would deposit. -/
structure ProvOracle where
  downloadOk : Bool
  extractOk : Bool
  archiveEntries : List String

/-- Update Client Provisioner, `steamcmd.py` lines 91-112: if the
SteamCMD binary is absent from the filesystem `fs`, download the
layer-specific archive and extract it (full tar extraction for the
Linux/Proton case, single-entry zip extraction written to the binary
path for the Windows/Wine case).  Download or extraction failure is a
fatal `sys.exit` (`Except.error`); the events of an aborted run are not
traced further since the process terminates. -/
def ensureUpdateClient (fs : List String) (steamcmd url dir : String)
    (proton : Bool) (o : ProvOracle) :
    Except String (List String × List Invocation) :=
  if steamcmd ∈ fs then Except.ok (fs, [])
  else if o.downloadOk = false then
    Except.error "Failed to retrieve SteamCMD"
  else if o.extractOk = false then
    Except.error "Failed to extract SteamCMD"
  else if proton then
    Except.ok (fs ++ o.archiveEntries,
      [Invocation.download url, Invocation.extractTar dir])
  else
    Except.ok (fs ++ [steamcmd],
      [Invocation.download url, Invocation.extractZipEntry "steamcmd.exe" steamcmd])

/-- The run parameters `update_game` reads from `args`. -/
structure UpdateArgs where
  proton : Bool
  prefixdir : String
  protondir : String
  gamedir : String
  wine_steam_dir : String
  account : String
  steamid : String
  proton_appid : Nat
  beta : Option String
  ats : Bool

/-- Outcomes of the external probes and spawned processes that
`update_game` branches on. -/
structure UpdateOracle where
  fs : List String
  prov : ProvOracle
  wineVersionOk : Bool
  platformLinux : Bool
  linuxSteamRunning : Bool
  windowsSteamRunning : Bool
  winepathOk : Bool
  winepathOut : String
  detectedBeta : Option String
  protonUpdateOk : Bool
  gameUpdateOk : Bool

/-- The environment variant built for running SteamCMD itself,
`steamcmd.py` lines 39-53: Wine debug/arch settings, the *isolated*
SteamCMD prefix (`Dir.steamcmdpfx`), and the DLL override that disables
the Wine configuration dialog. -/
def steamcmdEnv (osenv : EnvMap) (v : Vars) : EnvMap :=
  setEnv
    (setEnv
      (setEnv (setEnv osenv "WINEDEBUG" "-all") "WINEARCH" "win64")
      "WINEPREFIX" v.steamcmdpfx)
    "WINEDLLOVERRIDES" "winex11.drv="

/-- The environment variant built for probing/shutting down the user's
Steam installation, `steamcmd.py` lines 42-48: the user's real prefix
(under Proton, the `pfx` subdirectory of the compat-data path). -/
def steamUserEnv (osenv : EnvMap) (a : UpdateArgs) : EnvMap :=
  setEnv (setEnv (setEnv osenv "WINEDEBUG" "-all") "WINEARCH" "win64")
    "WINEPREFIX"
    (if a.proton then pathJoin a.prefixdir "pfx" else a.prefixdir)

/-- `wine = env["WINE"] if "WINE" in env else "wine"`, line 55. -/
def wineNameOf (osenv : EnvMap) (v : Vars) : String :=
  (getEnv (steamcmdEnv osenv v) "WINE").getD "wine"

/-- The Steam-shutdown requests, `steamcmd.py` lines 116-125: the native
client via `steam -shutdown` (no `env=`), the Wine-hosted client via
`wine .../steam.exe -shutdown` with the *user*-prefix environment. -/
def shutdownEvents (osenv : EnvMap) (a : UpdateArgs) (o : UpdateOracle)
    (wine : Option String) : List Invocation :=
  (if o.platformLinux && o.linuxSteamRunning then
    [Invocation.call CallSite.linuxSteamShutdown ["steam", "-shutdown"] none]
  else []) ++
  (match wine with
   | some w =>
     if o.windowsSteamRunning then
       [Invocation.call CallSite.windowsSteamShutdown
         [w, pathJoin a.wine_steam_dir "steam.exe", "-shutdown"]
         (some (steamUserEnv osenv a))]
     else []
   | none => [])

/-- The Proton install/validate SteamCMD call, `steamcmd.py`
lines 138-143.  Note: the source passes no `env=` keyword here, so the
child inherits the ambient process environment (`env := none`). -/
def protonUpdateCall (steamcmd : String) (a : UpdateArgs) : Invocation :=
  Invocation.call CallSite.protonUpdate
    [steamcmd, "+login", a.account, "+force_install_dir", a.protondir,
     "+app_update", toString a.proton_appid, "validate", "+quit"]
    none

/-- The game install/validate SteamCMD call, `steamcmd.py` line 179,
run with the isolated SteamCMD environment (`env=env`). -/
def gameUpdateCall (osenv : EnvMap) (v : Vars) (cmdPrefix : List String)
    (a : UpdateArgs) (gamedir branch : String) : Invocation :=
  Invocation.call CallSite.gameUpdate
    (cmdPrefix ++ steamcmdGameArgs a.account gamedir a.steamid branch)
    (some (steamcmdEnv osenv v))

/-- Result of a run of `update_game`: the external effects in order, and
the `sys.exit` message if the run aborted (`sys.exit(msg)` prints the
message and terminates the process with a non-zero status). -/
structure UpdateTrace where
  events : List Invocation
  exit : Option String

/-- Update Orchestrator, `steamcmd.py` `update_game`: build the two
environment variants, probe Wine, resolve the SteamCMD binary
(provisioning it if absent), shut down running Steam clients, update
Proton when the Proton layer is selected (hard stop on failure), resolve
the release branch, and update the game (hard stop on failure). -/
def updateGame (osenv : EnvMap) (v : Vars) (a : UpdateArgs)
    (o : UpdateOracle) : UpdateTrace :=
  let env := steamcmdEnv osenv v
  let wineName := wineNameOf osenv v
  let probeEv := Invocation.call CallSite.wineVersionProbe
    [wineName, "--version"] (some env)
  let wine : Option String := if o.wineVersionOk then some wineName else none
  if a.proton then
    let steamcmd := pathJoin v.steamcmddir "steamcmd.sh"
    match ensureUpdateClient o.fs steamcmd v.steamcmdlnx v.steamcmddir true o.prov with
    | Except.error msg => ⟨[probeEv], some msg⟩
    | Except.ok (_, provEvs) =>
      let evs := [probeEv] ++ provEvs ++ shutdownEvents osenv a o wine
        ++ [protonUpdateCall steamcmd a]
      if o.protonUpdateOk then
        let branch := resolveBranch a.beta o.detectedBeta
        let evs := evs ++ [gameUpdateCall osenv v [steamcmd] a a.gamedir branch]
        if o.gameUpdateOk then ⟨evs, none⟩
        else ⟨evs, some "SteamCMD exited abnormally"⟩
      else ⟨evs, some "SteamCMD exited abnormally"⟩
  else
    match wine with
    | none => ⟨[probeEv], some "Wine (None) is not available."⟩
    | some w =>
      let wpEv := Invocation.call CallSite.winepathConvert
        [w, "winepath", "-w", a.gamedir] (some env)
      if o.winepathOk then
        let gamedir := o.winepathOut
        let steamcmd := pathJoin v.steamcmddir "steamcmd.exe"
        match ensureUpdateClient o.fs steamcmd v.steamcmdwin v.steamcmddir false o.prov with
        | Except.error msg => ⟨[probeEv, wpEv], some msg⟩
        | Except.ok (_, provEvs) =>
          let branch := resolveBranch a.beta o.detectedBeta
          let evs := [probeEv, wpEv] ++ provEvs ++ shutdownEvents osenv a o wine
            ++ [gameUpdateCall osenv v [w, steamcmd] a gamedir branch]
          if o.gameUpdateOk then ⟨evs, none⟩
          else ⟨evs, some "SteamCMD exited abnormally"⟩
      else ⟨[probeEv, wpEv],
        some "Failed to convert game directory to Windows path"⟩

/-- Environment composition of the Proton launch builder,
`__init__.py` lines 151-167: platform/app identifiers, compat-data
paths, rendering toggles, and — unless `--disable-proton-overlay` is
given — append the overlay renderer shared library to `LD_PRELOAD`
(colon-joined onto any existing value). -/
def buildProtonEnv (osenv : EnvMap) (v : Vars)
    (steamid prefixdir steamdir : String)
    (use_wined3d enable_d3d11 disable_proton_overlay : Bool) : EnvMap :=
  let env := setEnv osenv "SteamGameId" steamid
  let env := setEnv env "SteamAppId" steamid
  let env := setEnv env "STEAM_COMPAT_DATA_PATH" prefixdir
  let env := setEnv env "STEAM_COMPAT_CLIENT_INSTALL_PATH" steamdir
  let env := setEnv env "PROTON_USE_WINED3D" (if use_wined3d then "1" else "0")
  let env := setEnv env "PROTON_NO_D3D11" (if enable_d3d11 then "0" else "1")
  if disable_proton_overlay then env
  else
    let overlayrenderer := pathJoin steamdir v.overlayrenderer_inner
    match getEnv env "LD_PRELOAD" with
    | some x => setEnv env "LD_PRELOAD" (x ++ ":" ++ overlayrenderer)
    | none => setEnv env "LD_PRELOAD" overlayrenderer

/-- The single-player game executable path,
`os.path.join(args.gamedir, "bin/win_x64", exename)` with
`exename = "eurotrucks2.exe" if args.ets2 else "amtrucks.exe"`. -/
def spGamePath (gamedir : String) (ets2 : Bool) : String :=
  pathJoin (pathJoin gamedir "bin/win_x64")
    (if ets2 then "eurotrucks2.exe" else "amtrucks.exe")

/-- Argument vector of the Proton launch builder, `__init__.py`
lines 168-176: launcher prefix `[sys.executable, proton, "run"]`, then
for single-player the game executable plus the two fixed flags, and for
multiplayer the injector, game directory and mod directory. -/
def protonArgv (v : Vars) (pyExe protondir gamedir moddir : String)
    (singleplayer ets2 : Bool) : List String :=
  let proton := pathJoin protondir "proton"
  let argv := [pyExe, proton, "run"]
  if singleplayer then
    argv ++ [spGamePath gamedir ets2, "-nointro", "-64bit"]
  else
    argv ++ [v.inject_exe, gamedir, moddir]

/-- `wine = os.environ["WINE"] if "WINE" in os.environ else "wine"`,
`__init__.py` line 202. -/
def wineExeOf (osenv : EnvMap) : String :=
  (getEnv osenv "WINE").getD "wine"

/-- Argument vector of the Wine launch builder, `__init__.py`
lines 223-229: launcher prefix `[wine]`, then the same single-player /
multiplayer tail as the Proton builder. -/
def wineArgv (v : Vars) (wine gamedir moddir : String)
    (singleplayer ets2 : Bool) : List String :=
  let argv := [wine]
  if singleplayer then
    argv ++ [spGamePath gamedir ets2, "-nointro", "-64bit"]
  else
    argv ++ [v.inject_exe, gamedir, moddir]

/-- Exit status of the final game-launch command (`subprocess` raises
`CalledProcessError` on a non-zero exit and hands over the captured
combined output). -/
inductive RunOutcome where
  | success (out : String)
  | nonzeroExit (out : String)

inductive LogLevel where
  | info
  | error
  deriving DecidableEq

/-- What the Game Process Launcher did: log lines emitted, and whether
the program aborted. -/
structure LaunchReport where
  logs : List (LogLevel × String)
  aborted : Bool

/-- Game Process Launcher, `__init__.py` lines 193-197 (and 237-241 for
Wine): log the captured output at info level on success, at error level
on a non-zero exit; neither case aborts the run (no `sys.exit`).
`label` is `"Proton output:\n"` or `"Wine output:\n"`. -/
def runAndCapture (label : String) (outcome : RunOutcome) : LaunchReport :=
  match outcome with
  | RunOutcome.success out => ⟨[(LogLevel.info, label ++ out)], false⟩
  | RunOutcome.nonzeroExit out => ⟨[(LogLevel.error, label ++ out)], false⟩

/-- Parsed CLI options of `steamruntime_helper.py`. -/
structure HelperArgs where
  verbose : Option Nat
  executable : Option (List String)
  xdg_runtime_dir : Option String
  game_arguments : List String

/-- One launched auxiliary process: its argument vector and the
environment it was spawned with. -/
structure SpawnRec where
  argv : List String
  env : EnvMap
  deriving DecidableEq

/-- How the primary `subprocess.check_output` call ended: normal exit,
`CalledProcessError` (non-zero exit status), or a failure to invoke the
command at all (an `OSError` such as `FileNotFoundError`, which the
helper does *not* catch). -/
inductive PrimaryOutcome where
  | success (out : String)
  | nonzeroExit (out : String)
  | invocationFailure

/-- Final state of one auxiliary process when the helper terminates:
`killedAndReaped` — it was still alive, `kill()` then `wait()` were
called; `reaped` — it had already exited, only `wait()` was called;
`leaked` — the helper terminated without ever reaching the cleanup
loop, so the process was neither signalled nor reaped. -/
inductive AuxFate where
  | killedAndReaped
  | reaped
  | leaked
  deriving DecidableEq

/-- The environment the helper passes to the primary command,
`steamruntime_helper.py` lines 41-43: a copy of the process environment
plus, when `--xdg-runtime-dir` is given, `XDG_RUNTIME_DIR`. -/
def helperEnv (osenv : EnvMap) (a : HelperArgs) : EnvMap :=
  match a.xdg_runtime_dir with
  | some d => setEnv osenv "XDG_RUNTIME_DIR" d
  | none => osenv

/-- Auxiliary-process launches, `steamruntime_helper.py` lines 45-55:
for each `--executable` path, `Popen` of the first three tokens of the
primary command followed by that path, with an environment copy from
which `LD_PRELOAD` has been deleted. -/
def helperSpawns (env : EnvMap) (gameArgs : List String)
    (execs : Option (List String)) : List SpawnRec :=
  match execs with
  | none => []
  | some paths =>
    let env3 := delEnv env "LD_PRELOAD"
    paths.map (fun p => ⟨gameArgs.take 3 ++ [p], env3⟩)

/-- The cleanup loop, `steamruntime_helper.py` lines 65-69: for each
auxiliary process, `kill()` if `poll()` reports it alive, then
`wait()`.  `alive i` is the liveness of the `i`-th process at drain
time. -/
def drainFates (n : Nat) (alive : Nat → Bool) : List AuxFate :=
  (List.range n).map
    (fun i => if alive i then AuxFate.killedAndReaped else AuxFate.reaped)

/-- Everything observable about one run of the helper's `main`. -/
structure HelperRun where
  spawned : List SpawnRec
  fates : List AuxFate
  primaryEnv : EnvMap
  escaped : Bool
  stderrOut : Option String

/-- Runtime Container Supervisor, `steamruntime_helper.py` `main`:
spawn the auxiliary processes, run the primary command synchronously,
then drain the auxiliaries.  The `try` block catches *only*
`CalledProcessError` (printing the captured output to stderr), so when
invoking the primary command itself fails the exception propagates out
of `main`, the cleanup loop is skipped, and every auxiliary process is
left running (`escaped := true`, fates `leaked`). -/
def helperMain (osenv : EnvMap) (a : HelperArgs)
    (primary : PrimaryOutcome) (alive : Nat → Bool) : HelperRun :=
  let env := helperEnv osenv a
  let spawned := helperSpawns env a.game_arguments a.executable
  match primary with
  | PrimaryOutcome.success _ =>
    ⟨spawned, drainFates spawned.length alive, env, false, none⟩
  | PrimaryOutcome.nonzeroExit out =>
    ⟨spawned, drainFates spawned.length alive, env, false,
      some ("Proton output:\n" ++ out)⟩
  | PrimaryOutcome.invocationFailure =>
    ⟨spawned, spawned.map (fun _ => AuxFate.leaked), env, true, none⟩

/-- Concrete `variables.py`-style constants for witnesses and
counterexamples. -/
def sampleVars : Vars :=
  ⟨"/pfx", "/d", "lnx.tgz", "win.zip", "so/overlay.so", "inj.exe"⟩

/-- A concrete Proton-layer configuration for witnesses and
counterexamples. -/
def sampleArgsProton : UpdateArgs :=
  ⟨true, "/pr", "/pd", "/gd", "/ws", "acc", "227300", 1245040, none, false⟩

/-- A concrete oracle: SteamCMD already present, Wine unavailable, no
Steam client running, both updates succeed. -/
def sampleOracle : UpdateOracle :=
  ⟨["/d/steamcmd.sh", "/d/steamcmd.exe"], ⟨true, true, []⟩,
   false, false, false, false, true, "Z:\\gd", none, true, true⟩

/-- Concrete CLI options for the Runtime Container Supervisor: one
auxiliary executable, a four-token primary command. -/
def sampleHelperArgs : HelperArgs :=
  ⟨none, some ["aux.exe"], none, ["py", "/d/proton", "run", "game.exe"]⟩

/-- Like `sampleOracle` but with the Proton update exiting non-zero. -/
def sampleOracleProtonFail : UpdateOracle :=
  ⟨["/d/steamcmd.sh", "/d/steamcmd.exe"], ⟨true, true, []⟩,
   false, false, false, false, true, "Z:\\gd", none, false, true⟩

/-- Boolean rendering of the claim "this update-client invocation runs
with an environment whose `WINEPREFIX` is the isolated SteamCMD
prefix": vacuously true for every event that is not an update-client
call, and false for an update-client call that passes no environment. -/
def isolatedOk (pfx : String) : Invocation → Bool
  | Invocation.call CallSite.protonUpdate _ en =>
    match en with
    | some em => decide (getEnv em "WINEPREFIX" = some pfx)
    | none => false
  | Invocation.call CallSite.gameUpdate _ en =>
    match en with
    | some em => decide (getEnv em "WINEPREFIX" = some pfx)
    | none => false
  | _ => true

theorem getEnv_setEnv_self (e : EnvMap) (k v : String) :
    getEnv (setEnv e k v) k = some v := by
  induction e with
  | nil => simp [setEnv, getEnv]
  | cons head rest ih =>
    obtain ⟨a, b⟩ := head
    by_cases h : a = k
    · simp [setEnv, getEnv, h]
    · simp [setEnv, getEnv, h, ih]

theorem getEnv_setEnv_ne (e : EnvMap) (k k' v : String) (h : k ≠ k') :
    getEnv (setEnv e k v) k' = getEnv e k' := by
  induction e with
  | nil => simp [setEnv, getEnv, h]
  | cons head rest ih =>
    obtain ⟨a, b⟩ := head
    by_cases hak : a = k
    · subst hak
      simp [setEnv, getEnv, h]
    · simp only [setEnv, if_neg hak]
      by_cases hak' : a = k'
      · simp [getEnv, hak']
      · simp [getEnv, hak', ih]

theorem getEnv_delEnv_self (e : EnvMap) (k : String) :
    getEnv (delEnv e k) k = none := by
  induction e with
  | nil => simp [delEnv, getEnv]
  | cons head rest ih =>
    obtain ⟨a, b⟩ := head
    by_cases h : a = k
    · simpa [delEnv, h] using ih
    · simpa [delEnv, h, getEnv] using ih

theorem getEnv_delEnv_ne (e : EnvMap) (k k' : String) (h : k ≠ k') :
    getEnv (delEnv e k) k' = getEnv e k' := by
  induction e with
  | nil => simp [delEnv, getEnv]
  | cons head rest ih =>
    obtain ⟨a, b⟩ := head
    by_cases hak : a = k
    · subst hak
      simp [delEnv, getEnv, h, ih]
    · by_cases hak' : a = k'
      · simp [delEnv, getEnv, hak, hak', Ne.symm h]
      · simp [delEnv, getEnv, hak, hak', ih]

theorem envContains_setEnv {e : EnvMap} {k v p : String}
    (h : envContains (setEnv e k v) p) :
    envContains e p ∨ p.toList <:+: v.toList := by
  induction e with
  | nil =>
    obtain ⟨kv, hm, hinf⟩ := h
    simp [setEnv] at hm
    subst hm
    exact Or.inr hinf
  | cons head rest ih =>
    obtain ⟨a, b⟩ := head
    by_cases hak : a = k
    · obtain ⟨kv, hm, hinf⟩ := h
      simp only [setEnv, if_pos hak, List.mem_cons] at hm
      rcases hm with hm | hm
      · subst hm
        exact Or.inr hinf
      · exact Or.inl ⟨kv, List.mem_cons_of_mem _ hm, hinf⟩
    · obtain ⟨kv, hm, hinf⟩ := h
      simp only [setEnv, if_neg hak, List.mem_cons] at hm
      rcases hm with hm | hm
      · exact Or.inl ⟨kv, by simp [hm], hinf⟩
      · rcases ih ⟨kv, hm, hinf⟩ with hc | hc
        · obtain ⟨kv', hm', hinf'⟩ := hc
          exact Or.inl ⟨kv', List.mem_cons_of_mem _ hm', hinf'⟩
        · exact Or.inr hc

theorem getEnv_buildProtonEnv_base (osenv : EnvMap) (v : Vars)
    (sid pd sd : String) (w3 d3 : Bool) :
    getEnv (buildProtonEnv osenv v sid pd sd w3 d3 true) "LD_PRELOAD"
      = getEnv osenv "LD_PRELOAD" := by
  show getEnv
      (setEnv
        (setEnv
          (setEnv
            (setEnv
              (setEnv (setEnv osenv "SteamGameId" sid) "SteamAppId" sid)
              "STEAM_COMPAT_DATA_PATH" pd)
            "STEAM_COMPAT_CLIENT_INSTALL_PATH" sd)
          "PROTON_USE_WINED3D" (if w3 then "1" else "0"))
        "PROTON_NO_D3D11" (if d3 then "0" else "1"))
      "LD_PRELOAD" = getEnv osenv "LD_PRELOAD"
  rw [getEnv_setEnv_ne _ _ _ _ (by decide), getEnv_setEnv_ne _ _ _ _ (by decide),
    getEnv_setEnv_ne _ _ _ _ (by decide), getEnv_setEnv_ne _ _ _ _ (by decide),
    getEnv_setEnv_ne _ _ _ _ (by decide), getEnv_setEnv_ne _ _ _ _ (by decide)]

theorem buildProtonEnv_enabled_eq (osenv : EnvMap) (v : Vars)
    (sid pd sd : String) (w3 d3 : Bool) :
    buildProtonEnv osenv v sid pd sd w3 d3 false
      = setEnv (buildProtonEnv osenv v sid pd sd w3 d3 true) "LD_PRELOAD"
          (match getEnv osenv "LD_PRELOAD" with
           | some x => x ++ ":" ++ pathJoin sd v.overlayrenderer_inner
           | none => pathJoin sd v.overlayrenderer_inner) := by
  show (match getEnv (buildProtonEnv osenv v sid pd sd w3 d3 true) "LD_PRELOAD" with
        | some x => setEnv (buildProtonEnv osenv v sid pd sd w3 d3 true)
            "LD_PRELOAD" (x ++ ":" ++ pathJoin sd v.overlayrenderer_inner)
        | none => setEnv (buildProtonEnv osenv v sid pd sd w3 d3 true)
            "LD_PRELOAD" (pathJoin sd v.overlayrenderer_inner))
      = _
  rw [getEnv_buildProtonEnv_base]
  cases getEnv osenv "LD_PRELOAD" <;> rfl

/-- C7: for every single-player configuration, both launch builders
place the selected title's native executable immediately after the
launcher prefix (three tokens for Proton, one for Wine) followed by
exactly the two fixed flags, and the part after the prefix is identical
across the two compatibility layers. -/
theorem c7_singleplayer_argv (v : Vars) (osenv : EnvMap)
    (pyExe protondir gamedir moddir : String) (ets2 : Bool) :
    protonArgv v pyExe protondir gamedir moddir true ets2
      = [pyExe, pathJoin protondir "proton", "run",
         spGamePath gamedir ets2, "-nointro", "-64bit"]
    ∧ wineArgv v (wineExeOf osenv) gamedir moddir true ets2
      = [wineExeOf osenv, spGamePath gamedir ets2, "-nointro", "-64bit"]
    ∧ (protonArgv v pyExe protondir gamedir moddir true ets2).drop 3
      = (wineArgv v (wineExeOf osenv) gamedir moddir true ets2).drop 1 :=
  ⟨rfl, rfl, rfl⟩

/-- C8: for every multiplayer configuration, both launch builders place
the injector executable, the game directory and the mod directory — in
that order — after the launcher prefix, and nothing else. -/
theorem c8_multiplayer_argv (v : Vars) (osenv : EnvMap)
    (pyExe protondir gamedir moddir : String) (ets2 : Bool) :
    protonArgv v pyExe protondir gamedir moddir false ets2
      = [pyExe, pathJoin protondir "proton", "run",
         v.inject_exe, gamedir, moddir]
    ∧ wineArgv v (wineExeOf osenv) gamedir moddir false ets2
      = [wineExeOf osenv, v.inject_exe, gamedir, moddir]
    ∧ (protonArgv v pyExe protondir gamedir moddir false ets2).drop 3
      = [v.inject_exe, gamedir, moddir]
    ∧ (wineArgv v (wineExeOf osenv) gamedir moddir false ets2).drop 1
      = [v.inject_exe, gamedir, moddir] :=
  ⟨rfl, rfl, rfl, rfl⟩

/-- C2: the update branch resolves with precedence explicit override >
detected beta-branch name > "public" (a Python-falsy empty override
counts as unset), and the game-update argument list carries the
resolved value exactly once, as the token following `-beta` in the
fixed twelve-token template. -/
theorem c2_branch_precedence (b d acc gdir sid : String)
    (hb : b ≠ "") (hd : d ≠ "") :
    resolveBranch (some b) (some d) = b
    ∧ resolveBranch (some b) none = b
    ∧ resolveBranch none (some d) = d
    ∧ resolveBranch none none = "public"
    ∧ (steamcmdGameArgs acc gdir sid (resolveBranch (some b) (some d)))[8]?
        = some "-beta"
    ∧ (steamcmdGameArgs acc gdir sid (resolveBranch (some b) (some d)))[9]?
        = some b
    ∧ (steamcmdGameArgs acc gdir sid (resolveBranch (some b) (some d))).length
        = 12 := by
  have h1 : resolveBranch (some b) (some d) = b := by
    simp [resolveBranch, optTruthy, hb]
  refine ⟨h1, by simp [resolveBranch, optTruthy, hb],
    by simp [resolveBranch, optTruthy, hd],
    by simp [resolveBranch, optTruthy], rfl, ?_, rfl⟩
  rw [h1]
  rfl

theorem c2_branch_precedence_witness :
    resolveBranch (some "beta1") (some "det") = "beta1"
    ∧ resolveBranch none (some "det") = "det" := by
  obtain ⟨h1, _, h3, _⟩ :=
    c2_branch_precedence "beta1" "det" "acc" "/gd" "227300"
      (by decide) (by decide)
  exact ⟨h1, h3⟩

/-- C5: when the update-client binary is already present the
provisioner performs no download and no extraction; a second invocation
after a first one that left the binary in place performs no network
operation, and the Windows-archive (zip) path always leaves the binary
in place. -/
theorem c5_provisioner_idempotent (fs : List String) (s url dir : String)
    (p : Bool) (o o2 : ProvOracle) :
    (s ∈ fs → ensureUpdateClient fs s url dir p o = Except.ok (fs, []))
    ∧ (∀ fs2 evs,
        ensureUpdateClient fs s url dir p o = Except.ok (fs2, evs) →
        s ∈ fs2 →
        ensureUpdateClient fs2 s url dir p o2 = Except.ok (fs2, []))
    ∧ (∀ fs2 evs,
        ensureUpdateClient fs s url dir false o = Except.ok (fs2, evs) →
        s ∈ fs2) := by
  refine ⟨?_, ?_, ?_⟩
  · intro h
    simp [ensureUpdateClient, h]
  · intro fs2 evs _ hmem
    simp [ensureUpdateClient, hmem]
  · intro fs2 evs h
    by_cases hm : s ∈ fs
    · simp [ensureUpdateClient, hm] at h
      exact h.1 ▸ hm
    · cases hdl : o.downloadOk <;> cases hex : o.extractOk <;>
        simp [ensureUpdateClient, hm, hdl, hex] at h
      exact h.1 ▸ List.mem_append.2 (Or.inr (by simp))

theorem c5_provisioner_witness :
    ensureUpdateClient ["cmd.exe"] "cmd.exe" "u" "/d" false ⟨true, true, []⟩
      = Except.ok (["cmd.exe"], []) :=
  (c5_provisioner_idempotent [] "cmd.exe" "u" "/d" false
    ⟨true, true, []⟩ ⟨true, true, []⟩).2.1 ["cmd.exe"]
    [Invocation.download "u", Invocation.extractZipEntry "steamcmd.exe" "cmd.exe"]
    rfl (by simp)

/-- C10: disabling the overlay passes any inherited `LD_PRELOAD` value
through unchanged, and every other variable of the composed environment
is identical to the overlay-enabled build. -/
theorem c10_overlay_disabled_frame (osenv : EnvMap) (v : Vars)
    (steamid prefixdir steamdir : String) (w3 d3 : Bool) :
    getEnv (buildProtonEnv osenv v steamid prefixdir steamdir w3 d3 true)
        "LD_PRELOAD"
      = getEnv osenv "LD_PRELOAD"
    ∧ ∀ k, k ≠ "LD_PRELOAD" →
        getEnv (buildProtonEnv osenv v steamid prefixdir steamdir w3 d3 true) k
          = getEnv (buildProtonEnv osenv v steamid prefixdir steamdir w3 d3 false) k := by
  refine ⟨getEnv_buildProtonEnv_base osenv v steamid prefixdir steamdir w3 d3, ?_⟩
  intro k hk
  rw [buildProtonEnv_enabled_eq, getEnv_setEnv_ne _ _ _ _ (Ne.symm hk)]

theorem c10_overlay_disabled_frame_witness :
    getEnv (buildProtonEnv [("LD_PRELOAD", "/l.so")] sampleVars
        "g" "/p" "/s" true true true) "PATH"
      = getEnv (buildProtonEnv [("LD_PRELOAD", "/l.so")] sampleVars
        "g" "/p" "/s" true true false) "PATH" :=
  (c10_overlay_disabled_frame [("LD_PRELOAD", "/l.so")] sampleVars
    "g" "/p" "/s" true true).2 "PATH" (by decide)

/-- C3: with the overlay disabled the built environment does not
contain the overlay library path (provided the inherited environment
and the configured identifiers/paths do not already contain it, and the
path has at least two characters so the "0"/"1" toggle values cannot
contain it); with the overlay enabled, `LD_PRELOAD` is exactly the
prior value colon-joined with the overlay path, or the overlay path
alone when there was no prior value. -/
theorem c3_overlay_env (osenv : EnvMap) (v : Vars)
    (steamid prefixdir steamdir : String) (w3 d3 : Bool) :
    (2 ≤ (pathJoin steamdir v.overlayrenderer_inner).length →
      ¬ envContains osenv (pathJoin steamdir v.overlayrenderer_inner) →
      ¬ (pathJoin steamdir v.overlayrenderer_inner).toList <:+: steamid.toList →
      ¬ (pathJoin steamdir v.overlayrenderer_inner).toList <:+: prefixdir.toList →
      ¬ (pathJoin steamdir v.overlayrenderer_inner).toList <:+: steamdir.toList →
      ¬ envContains
          (buildProtonEnv osenv v steamid prefixdir steamdir w3 d3 true)
          (pathJoin steamdir v.overlayrenderer_inner))
    ∧ getEnv (buildProtonEnv osenv v steamid prefixdir steamdir w3 d3 false)
        "LD_PRELOAD"
      = some (match getEnv osenv "LD_PRELOAD" with
              | some x => x ++ ":" ++ pathJoin steamdir v.overlayrenderer_inner
              | none => pathJoin steamdir v.overlayrenderer_inner) := by
  constructor
  · intro hlen h0 h1 h2 h3 hcon
    have hlen2 : 2 ≤ (pathJoin steamdir v.overlayrenderer_inner).toList.length := hlen
    replace hcon : envContains
        (setEnv
          (setEnv
            (setEnv
              (setEnv
                (setEnv (setEnv osenv "SteamGameId" steamid) "SteamAppId" steamid)
                "STEAM_COMPAT_DATA_PATH" prefixdir)
              "STEAM_COMPAT_CLIENT_INSTALL_PATH" steamdir)
            "PROTON_USE_WINED3D" (if w3 then "1" else "0"))
          "PROTON_NO_D3D11" (if d3 then "0" else "1"))
        (pathJoin steamdir v.overlayrenderer_inner) := hcon
    rcases envContains_setEnv hcon with hcon | hinf
    · rcases envContains_setEnv hcon with hcon | hinf
      · rcases envContains_setEnv hcon with hcon | hinf
        · rcases envContains_setEnv hcon with hcon | hinf
          · rcases envContains_setEnv hcon with hcon | hinf
            · rcases envContains_setEnv hcon with hcon | hinf
              · exact h0 hcon
              · exact h1 hinf
            · exact h1 hinf
          · exact h2 hinf
        · exact h3 hinf
      · have hl := hinf.length_le
        have hone : (pathJoin steamdir v.overlayrenderer_inner).toList.length ≤ 1 := by
          cases w3 <;> exact hl
        omega
    · have hl := hinf.length_le
      have hone : (pathJoin steamdir v.overlayrenderer_inner).toList.length ≤ 1 := by
        cases d3 <;> exact hl
      omega
  · rw [buildProtonEnv_enabled_eq, getEnv_setEnv_self]

theorem c3_overlay_env_witness :
    ¬ envContains
        (buildProtonEnv [("LD_PRELOAD", "/l.so")] sampleVars
          "g" "/p" "/s" true true true)
        (pathJoin "/s" sampleVars.overlayrenderer_inner)
    ∧ getEnv (buildProtonEnv [("LD_PRELOAD", "/l.so")] sampleVars
        "g" "/p" "/s" true true false) "LD_PRELOAD"
      = some "/l.so:/s/so/overlay.so" := by
  obtain ⟨ha, hb⟩ :=
    c3_overlay_env [("LD_PRELOAD", "/l.so")] sampleVars "g" "/p" "/s" true true
  exact ⟨ha (by decide) (by decide) (by decide) (by decide) (by decide), hb⟩

/-- C4: each configured auxiliary executable is launched with the first
three tokens of the primary command followed by the executable path,
and with an environment copy from which the inherited `LD_PRELOAD`
variable has been removed. -/
theorem c4_aux_spawn (osenv : EnvMap) (a : HelperArgs)
    (primary : PrimaryOutcome) (alive : Nat → Bool) :
    ∀ s ∈ (helperMain osenv a primary alive).spawned,
      ∃ p, p ∈ a.executable.getD [] ∧
        s.argv = a.game_arguments.take 3 ++ [p] ∧
        s.env = delEnv (helperEnv osenv a) "LD_PRELOAD" ∧
        getEnv s.env "LD_PRELOAD" = none := by
  intro s hs
  have hspawn : (helperMain osenv a primary alive).spawned
      = helperSpawns (helperEnv osenv a) a.game_arguments a.executable := by
    cases primary <;> rfl
  rw [hspawn] at hs
  cases hex : a.executable with
  | none =>
    rw [hex] at hs
    simp [helperSpawns] at hs
  | some paths =>
    rw [hex] at hs
    simp only [helperSpawns, List.mem_map] at hs
    obtain ⟨p, hp, hsp⟩ := hs
    refine ⟨p, by simp [hex, hp], ?_, ?_, ?_⟩
    · rw [← hsp]
    · rw [← hsp]
    · rw [← hsp]
      exact getEnv_delEnv_self _ _

theorem c4_aux_spawn_witness :
    ∃ p, p ∈ sampleHelperArgs.executable.getD [] ∧
      (SpawnRec.mk ["py", "/d/proton", "run", "aux.exe"] [("PATH", "/bin")]).argv
        = sampleHelperArgs.game_arguments.take 3 ++ [p] ∧
      (SpawnRec.mk ["py", "/d/proton", "run", "aux.exe"] [("PATH", "/bin")]).env
        = delEnv
            (helperEnv [("LD_PRELOAD", "/l.so"), ("PATH", "/bin")] sampleHelperArgs)
            "LD_PRELOAD" ∧
      getEnv (SpawnRec.mk ["py", "/d/proton", "run", "aux.exe"]
          [("PATH", "/bin")]).env "LD_PRELOAD" = none :=
  c4_aux_spawn [("LD_PRELOAD", "/l.so"), ("PATH", "/bin")] sampleHelperArgs
    (PrimaryOutcome.success "") (fun _ => true)
    (SpawnRec.mk ["py", "/d/proton", "run", "aux.exe"] [("PATH", "/bin")])
    (by decide)

/-- C1 counterexample: when invoking the primary command fails (an
`OSError`, e.g. the executable is missing), the helper's `try` block —
which catches only `CalledProcessError` — lets the exception propagate,
the cleanup loop never runs, and a still-alive auxiliary process is
leaked; so it is not the case that on every termination mode of the
primary command every live auxiliary is terminated and reaped. -/
theorem c1_counterexample :
    ¬ ∀ f ∈ (helperMain [] sampleHelperArgs PrimaryOutcome.invocationFailure
        (fun _ => true)).fates, f ≠ AuxFate.leaked := by
  decide

/-- C1 (amended): when the primary command exits — successfully or with
a non-zero status — every auxiliary process is reaped (the live ones
killed first) and none is leaked, and the supervisor's `main` returns
normally; but when invoking the primary command itself fails, the
uncaught exception escapes `main` and every auxiliary process is
leaked. -/
theorem c1_supervisor_drain (osenv : EnvMap) (a : HelperArgs)
    (alive : Nat → Bool) (out : String) :
    ((helperMain osenv a (PrimaryOutcome.success out) alive).escaped = false)
    ∧ ((helperMain osenv a (PrimaryOutcome.nonzeroExit out) alive).escaped = false)
    ∧ (∀ f ∈ (helperMain osenv a (PrimaryOutcome.success out) alive).fates,
        f ≠ AuxFate.leaked)
    ∧ (∀ f ∈ (helperMain osenv a (PrimaryOutcome.nonzeroExit out) alive).fates,
        f ≠ AuxFate.leaked)
    ∧ ((helperMain osenv a (PrimaryOutcome.success out) alive).fates.length
        = (helperMain osenv a (PrimaryOutcome.success out) alive).spawned.length)
    ∧ (∀ f ∈ (helperMain osenv a PrimaryOutcome.invocationFailure alive).fates,
        f = AuxFate.leaked)
    ∧ ((helperMain osenv a PrimaryOutcome.invocationFailure alive).escaped = true) := by
  refine ⟨rfl, rfl, ?_, ?_, by simp [helperMain, drainFates], ?_, rfl⟩
  · intro f hf
    simp only [helperMain, drainFates, List.mem_map, List.mem_range] at hf
    obtain ⟨i, _, hi⟩ := hf
    rw [← hi]
    cases alive i <;> simp
  · intro f hf
    simp only [helperMain, drainFates, List.mem_map, List.mem_range] at hf
    obtain ⟨i, _, hi⟩ := hf
    rw [← hi]
    cases alive i <;> simp
  · intro f hf
    simp only [helperMain, List.mem_map] at hf
    obtain ⟨_, _, hi⟩ := hf
    exact hi.symm

theorem c1_supervisor_drain_witness :
    AuxFate.killedAndReaped ≠ AuxFate.leaked :=
  (c1_supervisor_drain [] sampleHelperArgs (fun _ => true) "out").2.2.1
    AuxFate.killedAndReaped (by decide)

theorem ensure_ok_evs {fs fs2 : List String} {s url dir : String} {p : Bool}
    {o : ProvOracle} {evs : List Invocation}
    (h : ensureUpdateClient fs s url dir p o = Except.ok (fs2, evs)) :
    evs = []
    ∨ evs = [Invocation.download url, Invocation.extractTar dir]
    ∨ evs = [Invocation.download url,
             Invocation.extractZipEntry "steamcmd.exe" s] := by
  by_cases hm : s ∈ fs
  · simp [ensureUpdateClient, hm] at h
    exact Or.inl h.2
  · cases hdl : o.downloadOk <;> cases hex : o.extractOk <;>
      simp [ensureUpdateClient, hm, hdl, hex] at h
    cases hp2 : p
    · simp [hp2] at h
      first
      | exact Or.inr (Or.inr h.2)
      | exact Or.inr (Or.inr h.2.symm)
    · simp [hp2] at h
      first
      | exact Or.inr (Or.inl h.2)
      | exact Or.inr (Or.inl h.2.symm)

theorem ensure_ok_noCall {fs fs2 : List String} {s url dir : String} {p : Bool}
    {o : ProvOracle} {evs : List Invocation}
    (h : ensureUpdateClient fs s url dir p o = Except.ok (fs2, evs)) :
    ∀ e ∈ evs, ∀ site argv en, e ≠ Invocation.call site argv en := by
  rcases ensure_ok_evs h with rfl | rfl | rfl
  · intro e he
    simp at he
  · intro e he site argv en
    simp only [List.mem_cons, List.not_mem_nil, or_false] at he
    rcases he with rfl | rfl <;> simp
  · intro e he site argv en
    simp only [List.mem_cons, List.not_mem_nil, or_false] at he
    rcases he with rfl | rfl <;> simp

theorem shutdownEvents_noUpdateCall (osenv : EnvMap) (a : UpdateArgs)
    (o : UpdateOracle) (wine : Option String) :
    ∀ e ∈ shutdownEvents osenv a o wine, ∀ argv en,
      e ≠ Invocation.call CallSite.gameUpdate argv en ∧
      e ≠ Invocation.call CallSite.protonUpdate argv en := by
  intro e he argv en
  unfold shutdownEvents at he
  rcases List.mem_append.1 he with h | h
  · by_cases hl : (o.platformLinux && o.linuxSteamRunning) = true
    · simp [hl] at h
      subst h
      constructor <;> simp
    · simp [hl] at h
  · cases wine with
    | none => simp at h
    | some w =>
      by_cases hw : o.windowsSteamRunning = true
      · simp [hw] at h
        subst h
        constructor <;> simp
      · simp [hw] at h

/-- C6 counterexample: in a concrete Proton-layer run, the trace of
`update_game` contains an update-client invocation (the Proton
install/validate call, `steamcmd.py` line 138) that passes no
environment at all — `subprocess.check_call` is called without `env=` —
so not every update-client invocation runs with the isolated-prefix
environment variant. -/
theorem c6_counterexample :
    ¬ ∀ e ∈ (updateGame [] sampleVars sampleArgsProton sampleOracle).events,
        isolatedOk sampleVars.steamcmdpfx e = true := by
  decide

/-- C6 (amended): the game-update invocation always runs with the
environment variant built for the update client itself, whose
`WINEPREFIX` is the isolated SteamCMD prefix; the Proton-update
invocation, however, passes no environment and therefore inherits the
ambient process environment. -/
theorem c6_update_client_env (osenv : EnvMap) (v : Vars) (a : UpdateArgs)
    (o : UpdateOracle) :
    getEnv (steamcmdEnv osenv v) "WINEPREFIX" = some v.steamcmdpfx
    ∧ ∀ e ∈ (updateGame osenv v a o).events, ∀ argv en,
        (e = Invocation.call CallSite.gameUpdate argv en →
          en = some (steamcmdEnv osenv v))
        ∧ (e = Invocation.call CallSite.protonUpdate argv en → en = none) := by
  constructor
  · unfold steamcmdEnv
    rw [getEnv_setEnv_ne _ _ _ _ (by decide)]
    exact getEnv_setEnv_self _ _ _
  · intro e he argv en
    simp only [updateGame] at he
    by_cases hp : a.proton = true
    · simp only [hp, if_true] at he
      cases hE : ensureUpdateClient o.fs (pathJoin v.steamcmddir "steamcmd.sh")
          v.steamcmdlnx v.steamcmddir true o.prov with
      | error msg =>
        rw [hE] at he
        simp at he
        subst he
        constructor <;> intro hc <;> simp at hc
      | ok pr =>
        obtain ⟨fs2, provEvs⟩ := pr
        rw [hE] at he
        by_cases hpo : o.protonUpdateOk = true
        · simp only [hpo, if_true] at he
          by_cases hgo : o.gameUpdateOk = true <;>
            simp only [hgo, if_true, Bool.false_eq_true, if_false,
              List.mem_append, List.mem_singleton] at he <;>
          · rcases he with (((he | he) | he) | he) | he
            · subst he
              constructor <;> intro hc <;> simp at hc
            · constructor <;> intro hc <;>
                exact (ensure_ok_noCall hE e he _ argv en hc).elim
            · obtain ⟨hg, hpp⟩ :=
                shutdownEvents_noUpdateCall osenv a o _ e he argv en
              exact ⟨fun hc => absurd hc hg, fun hc => absurd hc hpp⟩
            · subst he
              refine ⟨fun hc => ?_, fun hc => ?_⟩
              · unfold protonUpdateCall at hc
                simp at hc
              · unfold protonUpdateCall at hc
                injection hc with h1 h2 h3
                exact h3.symm
            · subst he
              refine ⟨fun hc => ?_, fun hc => ?_⟩
              · unfold gameUpdateCall at hc
                injection hc with h1 h2 h3
                exact h3.symm
              · unfold gameUpdateCall at hc
                simp at hc
        · simp only [hpo, Bool.false_eq_true, if_false,
            List.mem_append, List.mem_singleton] at he
          rcases he with ((he | he) | he) | he
          · subst he
            constructor <;> intro hc <;> simp at hc
          · constructor <;> intro hc <;>
              exact (ensure_ok_noCall hE e he _ argv en hc).elim
          · obtain ⟨hg, hpp⟩ :=
              shutdownEvents_noUpdateCall osenv a o _ e he argv en
            exact ⟨fun hc => absurd hc hg, fun hc => absurd hc hpp⟩
          · subst he
            refine ⟨fun hc => ?_, fun hc => ?_⟩
            · unfold protonUpdateCall at hc
              simp at hc
            · unfold protonUpdateCall at hc
              injection hc with h1 h2 h3
              exact h3.symm
    · simp only [hp, Bool.false_eq_true, if_false] at he
      by_cases hwv : o.wineVersionOk = true
      · simp only [hwv, if_true] at he
        by_cases hwp : o.winepathOk = true
        · simp only [hwp, if_true] at he
          cases hE : ensureUpdateClient o.fs
              (pathJoin v.steamcmddir "steamcmd.exe")
              v.steamcmdwin v.steamcmddir false o.prov with
          | error msg =>
            rw [hE] at he
            simp at he
            rcases he with he | he <;> subst he <;>
              constructor <;> intro hc <;> simp at hc
          | ok pr =>
            obtain ⟨fs2, provEvs⟩ := pr
            rw [hE] at he
            by_cases hgo : o.gameUpdateOk = true <;>
              simp only [hgo, if_true, Bool.false_eq_true, if_false,
                List.mem_append, List.mem_cons, List.mem_singleton,
                List.not_mem_nil, or_false] at he <;>
            · rcases he with ((he | he) | he) | he
              · rcases he with he | he <;> subst he <;>
                  constructor <;> intro hc <;> simp at hc
              · constructor <;> intro hc <;>
                  exact (ensure_ok_noCall hE e he _ argv en hc).elim
              · obtain ⟨hg, hpp⟩ :=
                  shutdownEvents_noUpdateCall osenv a o _ e he argv en
                exact ⟨fun hc => absurd hc hg, fun hc => absurd hc hpp⟩
              · subst he
                refine ⟨fun hc => ?_, fun hc => ?_⟩
                · unfold gameUpdateCall at hc
                  injection hc with h1 h2 h3
                  exact h3.symm
                · unfold gameUpdateCall at hc
                  simp at hc
        · simp only [hwp, Bool.false_eq_true, if_false] at he
          simp at he
          rcases he with he | he <;> subst he <;>
            constructor <;> intro hc <;> simp at hc
      · simp only [hwv, Bool.false_eq_true, if_false] at he
        simp at he
        subst he
        constructor <;> intro hc <;> simp at hc

theorem c6_update_client_env_witness :
    (none : Option EnvMap) = none
    ∧ getEnv (steamcmdEnv [] sampleVars) "WINEPREFIX" = some "/pfx" := by
  have h := c6_update_client_env [] sampleVars sampleArgsProton sampleOracle
  refine ⟨?_, h.1⟩
  exact (h.2
    (Invocation.call CallSite.protonUpdate
      ["/d/steamcmd.sh", "+login", "acc", "+force_install_dir", "/pd",
       "+app_update", "1245040", "validate", "+quit"] none)
    (by decide)
    ["/d/steamcmd.sh", "+login", "acc", "+force_install_dir", "/pd",
     "+app_update", "1245040", "validate", "+quit"]
    none).2 rfl

/-- C9: a non-zero exit of an update-client invocation (the Proton
update or the game update, whichever is reached) aborts the run via
`sys.exit("SteamCMD exited abnormally")` — a non-zero process exit with
that message — while a non-zero exit of the final game-launch command
is only logged at error level together with the captured combined
output and does not abort the program. -/
theorem c9_error_policy (osenv : EnvMap) (v : Vars) (a : UpdateArgs)
    (o : UpdateOracle) :
    (∀ pr, a.proton = true →
      ensureUpdateClient o.fs (pathJoin v.steamcmddir "steamcmd.sh")
          v.steamcmdlnx v.steamcmddir true o.prov = Except.ok pr →
      o.protonUpdateOk = false →
      (updateGame osenv v a o).exit = some "SteamCMD exited abnormally")
    ∧ (∀ pr, a.proton = true →
      ensureUpdateClient o.fs (pathJoin v.steamcmddir "steamcmd.sh")
          v.steamcmdlnx v.steamcmddir true o.prov = Except.ok pr →
      o.protonUpdateOk = true → o.gameUpdateOk = false →
      (updateGame osenv v a o).exit = some "SteamCMD exited abnormally")
    ∧ (∀ pr, a.proton = false → o.wineVersionOk = true → o.winepathOk = true →
      ensureUpdateClient o.fs (pathJoin v.steamcmddir "steamcmd.exe")
          v.steamcmdwin v.steamcmddir false o.prov = Except.ok pr →
      o.gameUpdateOk = false →
      (updateGame osenv v a o).exit = some "SteamCMD exited abnormally")
    ∧ ∀ label out, runAndCapture label (RunOutcome.nonzeroExit out)
        = ⟨[(LogLevel.error, label ++ out)], false⟩ := by
  refine ⟨?_, ?_, ?_, fun label out => rfl⟩
  · intro pr hp hE hpo
    obtain ⟨fs2, evs2⟩ := pr
    simp [updateGame, hp, hE, hpo]
  · intro pr hp hE hpo hgo
    obtain ⟨fs2, evs2⟩ := pr
    simp [updateGame, hp, hE, hpo, hgo]
  · intro pr hp hwv hwp hE hgo
    obtain ⟨fs2, evs2⟩ := pr
    simp [updateGame, hp, hwv, hwp, hE, hgo]

theorem c9_error_policy_witness :
    (updateGame [] sampleVars sampleArgsProton sampleOracleProtonFail).exit
      = some "SteamCMD exited abnormally"
    ∧ runAndCapture "Proton output:\n" (RunOutcome.nonzeroExit "crash")
      = ⟨[(LogLevel.error, "Proton output:\ncrash")], false⟩ := by
  have h := c9_error_policy [] sampleVars sampleArgsProton sampleOracleProtonFail
  exact ⟨h.1 (["/d/steamcmd.sh", "/d/steamcmd.exe"], []) rfl rfl rfl,
    h.2.2.2 "Proton output:\n" "crash"⟩
